import Mathlib

/-!
Formal model of the Reversed-RideSmart frontend (React) and of the
cancellation controller it talks to, together with theorems about the
behavior of these components.

Each definition is a shallow embedding of a function or state-update of
the repository sources (file and line references are given in the doc
comments).  JavaScript strings are modelled by Lean `String`; the
JavaScript string primitives used by the code (`toLowerCase`, `trim`,
`includes`, `replace` of a single trailing slash) are implemented over
the character list of the string so that they evaluate inside proofs.
React `useState` state is modelled by explicit state records, and the
event handlers become state-transition functions.
-/

/-- Model of JavaScript whitespace as trimmed by `String.prototype.trim`
(restricted to the ASCII whitespace characters that occur in the data
handled by this application). -/
def isWsChar (c : Char) : Bool := c == ' ' || c == '\t' || c == '\n' || c == '\r'

/-- Model of the JavaScript `String.prototype.trim`. -/
def jsTrim (s : String) : String :=
  ⟨((s.data.dropWhile isWsChar).reverse.dropWhile isWsChar).reverse⟩

/-- Model of the JavaScript `String.prototype.toLowerCase`. -/
def jsToLowerCase (s : String) : String := ⟨s.data.map Char.toLower⟩

/-- Model of the JavaScript `s.replace(/\/$/, '')`: removes at most one
trailing slash. -/
def jsStripOneTrailingSlash (s : String) : String :=
  if s.data.getLast? == some '/' then ⟨s.data.dropLast⟩ else s

/-- Model of the JavaScript `String.prototype.includes`: substring
containment, decided on the character lists. -/
def jsIncludes (s pat : String) : Bool := decide (pat.data <:+: s.data)

/-! ### Cancellation: server-side controller and status store -/

/-- Status of a booking record: `status ∈ {Active, Cancelled}` (spec section 3). -/
inductive RecStatus where
  | active
  | cancelled
deriving DecidableEq, Repr

/-- Modelled from the spec: a `BookingRecord` of the StatusStore (spec
section 3), restricted to the fields the cancellation path reads: owner
account, external ride id and status.  The backend StatusStore
implementation (Python) is not among the provided sources. -/
structure BookingRecord where
  owner : String
  rideId : Nat
  status : RecStatus
deriving DecidableEq, Repr

/-- The StatusStore record list. -/
abbrev Store := List BookingRecord

/-- Predicate selecting the record of account `acct` with external ride id
`ride`. -/
def recMatches (acct : String) (ride : Nat) (r : BookingRecord) : Bool :=
  decide (r.owner = acct ∧ r.rideId = ride)

/-- Set the status of the matching record to Cancelled, leaving every
other record unchanged. -/
def markCancelled (store : Store) (acct : String) (ride : Nat) : Store :=
  store.map (fun r =>
    if recMatches acct ride r then { r with status := RecStatus.cancelled } else r)

/-- Modelled from the spec: `TransitionToCancelled(accountId, externalRideId)
→ {already: bool}` (spec section 4.2), the guarded compare-and-swap style
transition: it flips the status only if currently Active and returns
whether the record was already Cancelled.  The backend implementation is
not among the provided sources. -/
def transitionToCancelled (store : Store) (acct : String) (ride : Nat) : Bool × Store :=
  match store.find? (recMatches acct ride) with
  | none => (true, store)
  | some r =>
    if r.status = RecStatus.cancelled then (true, store)
    else (false, markCancelled store acct ride)

/-- Result alternatives of `Cancel` (spec section 4.3). -/
inductive CancelResult where
  | success
  | alreadyCancelled
  | externalFailure
deriving DecidableEq, Repr

/-- Outcome of one `Cancel` call: its result, the store it leaves behind,
and how many times the external cancel primitive was invoked. -/
structure CancelOutcome where
  result : CancelResult
  store : Store
  externalCalls : Nat
deriving DecidableEq, Repr

/-- Modelled from the spec: `Cancel(account, externalRideId)` of the
CancellationController (spec section 4.3), whose backend implementation is
not among the provided sources.  It looks up the record; if absent or
already Cancelled it returns AlreadyCancelled without calling the external
cancel primitive; otherwise it calls the external primitive (counted in
`externalCalls`, with `extOk` telling whether that call succeeds) and only
on success performs the guarded transition; on external failure the record
remains Active. -/
def cancelCtl (extOk : Bool) (store : Store) (acct : String) (ride : Nat) : CancelOutcome :=
  match store.find? (recMatches acct ride) with
  | none => { result := CancelResult.alreadyCancelled, store := store, externalCalls := 0 }
  | some r =>
    if r.status = RecStatus.cancelled then
      { result := CancelResult.alreadyCancelled, store := store, externalCalls := 0 }
    else if extOk then
      { result := CancelResult.success
        store := (transitionToCancelled store acct ride).2
        externalCalls := 1 }
    else
      { result := CancelResult.externalFailure, store := store, externalCalls := 1 }

/-- Success-equivalence of cancel results: Success and AlreadyCancelled
are both success-equivalent (AlreadyCancelled is an idempotent success,
spec section 7); ExternalFailure is not. -/
def successEquiv (r : CancelResult) : Bool :=
  match r with
  | CancelResult.success => true
  | CancelResult.alreadyCancelled => true
  | CancelResult.externalFailure => false

/-! ### Cancellation: client-side in-flight guard (DeveloperPanel.js) -/

/-- Model of `new Set(prev).add(key)` on the JavaScript `Set` of in-flight
cancel keys (DeveloperPanel.js line 53). -/
def setAdd (s : List String) (k : String) : List String :=
  if k ∈ s then s else s ++ [k]

/-- Model of `next.delete(key)` on the JavaScript `Set` of in-flight
cancel keys (DeveloperPanel.js lines 68 to 72). -/
def setDelete (s : List String) (k : String) : List String :=
  s.filter (fun x => x != k)

/-- The in-flight key of one cancel request, from DeveloperPanel.js line
52: the template literal joining the user key and the ride id with a
dash. -/
def cancelKey (userKey : String) (rideId : Nat) : String :=
  userKey ++ "-" ++ toString rideId

/-- State update at the start of `cancelRide` (DeveloperPanel.js line 53):
the key is added to `cancellingRideIds`. -/
def startCancelRide (cancelling : List String) (userKey : String) (rideId : Nat) : List String :=
  setAdd cancelling (cancelKey userKey rideId)

/-- State update in the `finally` block of `cancelRide` (DeveloperPanel.js
lines 67 to 73): the key is removed from `cancellingRideIds`. -/
def finishCancelRide (cancelling : List String) (userKey : String) (rideId : Nat) : List String :=
  setDelete cancelling (cancelKey userKey rideId)

/-- Whether the Cancel button for a ride entry is disabled
(DeveloperPanel.js lines 136 to 137 and 154): it is disabled exactly when
the cancel key of that entry is in `cancellingRideIds`. -/
def cancelButtonDisabled (cancelling : List String) (userKey : String) (rideId : Nat) : Bool :=
  decide (cancelKey userKey rideId ∈ cancelling)

/-! ### Ride-kind determination (App variants) -/

/-- The `ride_type` sent to the server by `bookRide`: the merged App
variant in DeveloperPanel.js lines 641 to 643 computes
`JSON.stringify(proposal).toLowerCase()` and classifies the proposal as
Lyft exactly when that string contains the substring lyft.  The argument
is the JSON-serialized proposal. -/
def bookRideType (proposalStr : String) : String :=
  if jsIncludes (jsToLowerCase proposalStr) ("lyft") then "Lyft" else "RideSmart"

/-- The `isLyft` flag computed when rendering a proposal card (merged App
variant in DeveloperPanel.js lines 1173 to 1177, and part_001 lines 489 to
493): the same substring scan of the JSON-serialized proposal. -/
def renderIsLyft (proposalStr : String) : Bool :=
  jsIncludes (jsToLowerCase proposalStr) ("lyft")

/-- The vehicle-type badge text shown on a proposal card, exactly as the
source writes it (DeveloperPanel.js line 1177). -/
def vehicleTypeBadge (proposalStr : String) : String :=
  if renderIsLyft proposalStr then "üöó Lyft" else "üöê RideSmart"

/-! ### LyftBooker orchestrator run stream (LyftBooker.js, second variant) -/

/-- One entry of the `activeBookings` client list (LyftBooker.js lines
423 to 427). -/
structure ActiveBooking where
  user_name : String
  ride_id : Nat
  ride_type : String
deriving DecidableEq, Repr

/-- The `lyft_booking` payload of a terminal result event, restricted to
the field the client reads: `prescheduled_recurring_series_rides`, as a
list of ride ids (LyftBooker.js lines 449 to 456). -/
structure LyftBooking where
  seriesRideIds : List Nat
deriving DecidableEq, Repr

/-- The `result` state of the LyftBooker component (LyftBooker.js lines
441 to 445). -/
structure RunResult where
  success : Bool
  message : String
  booking : Option LyftBooking
deriving DecidableEq, Repr

/-- Outcome of the booking regular expression of LyftBooker.js line 414 on
one log message: the captured user name (group 1, before trimming), the
ride type (group 2) and the optional ride id (group 3 or group 4, already
converted by `parseInt`).  The regular expression engine itself is a
JavaScript library primitive; it is modelled by its match result. -/
structure BookingMatch where
  userName : String
  rideType : String
  rideId : Option Nat
deriving DecidableEq, Repr

/-- One parsed server-sent event line of the run stream, as dispatched on
`data.type` by LyftBooker.js lines 409 to 470.  `logEvent` carries the
message together with the match results of the booking pattern (line 414)
and of the cancellation pattern (line 435, group 1 before trimming) on
that message; `skipLine` stands for a line without the data prefix or one
whose JSON parse or field access throws (caught at line 471). -/
inductive RunEvent where
  | logEvent (message : String) (bookingMatch : Option BookingMatch) (cancelMatch : Option String)
  | resultEvent (success : Bool) (message : String) (booking : Option LyftBooking)
  | errorEvent (message : String)
  | skipLine
deriving DecidableEq, Repr

/-- The component state touched by `runOrchestrator`: the log lines, the
terminal result, the running flag and the tracked active bookings. -/
structure RunState where
  log : List String
  result : Option RunResult
  running : Bool
  activeBookings : List ActiveBooking
deriving DecidableEq, Repr

/-- The `activeBookings` update for a booking match (LyftBooker.js lines
415 to 432): if the parsed ride id is absent, nothing happens; if a
booking with the same ride id already exists the list is unchanged;
otherwise the new booking (with the user name trimmed) is appended. -/
def applyBookingMatch (abs : List ActiveBooking) (bm : BookingMatch) : List ActiveBooking :=
  match bm.rideId with
  | none => abs
  | some rid =>
    if abs.any (fun b => b.ride_id == rid) then abs
    else abs ++ [{ user_name := jsTrim bm.userName, ride_id := rid, ride_type := bm.rideType }]

/-- The `activeBookings` update for a cancellation match (LyftBooker.js
lines 435 to 439): every booking of the trimmed user name is removed. -/
def applyCancelMatch (abs : List ActiveBooking) (rawName : String) : List ActiveBooking :=
  abs.filter (fun b => b.user_name != jsTrim rawName)

/-- Processing of one `log` event (LyftBooker.js lines 409 to 439): the
message is appended to the log, then the booking match and the
cancellation match are applied to `activeBookings`. -/
def stepLogEvent (s : RunState) (msg : String) (bm : Option BookingMatch)
    (cm : Option String) : RunState :=
  let s1 := { s with log := s.log ++ [msg] }
  let s2 :=
    match bm with
    | none => s1
    | some b => { s1 with activeBookings := applyBookingMatch s1.activeBookings b }
  match cm with
  | none => s2
  | some n => { s2 with activeBookings := applyCancelMatch s2.activeBookings n }

/-- Processing of a `result` event in the main read loop (LyftBooker.js
lines 440 to 461): the result is recorded; on success with a
`lyft_booking` whose ride list is nonempty, a booking for the original
user with the first ride id and type Lyft is appended to `activeBookings`
with no duplicate check; the running flag is cleared and the function
returns. -/
def stepResultEvent (origName : String) (s : RunState) (success : Bool) (message : String)
    (booking : Option LyftBooking) : RunState :=
  let s1 := { s with result := some { success := success, message := message, booking := booking } }
  let s2 :=
    if success then
      match booking with
      | some lb =>
        match lb.seriesRideIds with
        | [] => s1
        | rid :: _ =>
          { s1 with activeBookings :=
              s1.activeBookings ++ [{ user_name := origName, ride_id := rid, ride_type := "Lyft" }] }
      | none => s1
    else s1
  { s2 with running := false }

/-- Processing of an `error` event in the main read loop (LyftBooker.js
lines 462 to 469): a failure result is recorded, the error line is
appended to the log, the running flag is cleared and the function
returns. -/
def stepErrorEvent (s : RunState) (message : String) : RunState :=
  { s with
    result := some { success := false, message := ("Error: " ++ message), booking := none }
    log := s.log ++ [("ERROR: " ++ message)]
    running := false }

/-- The main read loop of `runOrchestrator` over the parsed event lines
(LyftBooker.js lines 404 to 475): log events and skipped lines continue
the loop, while the first result or error event is processed and the
function returns, ignoring everything after it.  The second component
tells whether the loop returned early on a terminal event.  `origName` is
the looked-up name of the selected original user (line 451). -/
def processEvents (origName : String) : RunState → List RunEvent → RunState × Bool
  | s, [] => (s, false)
  | s, RunEvent.logEvent m bm cm :: rest => processEvents origName (stepLogEvent s m bm cm) rest
  | s, RunEvent.resultEvent suc msg b :: _ => (stepResultEvent origName s suc msg b, true)
  | s, RunEvent.errorEvent m :: _ => (stepErrorEvent s m, true)
  | s, RunEvent.skipLine :: rest => processEvents origName s rest

/-- The failure message installed when the stream closes without a
terminal event (LyftBooker.js line 392). -/
def connClosedMsg : String :=
  "Connection closed unexpectedly. All rides have been cancelled on the server."

/-- Processing of the remaining buffered lines once the reader reports
done (LyftBooker.js lines 358 to 385): every remaining line is examined
in order, without an early return; only result and error events have an
effect (log events in the tail are ignored there). -/
def flushTail (s : RunState) : List RunEvent → RunState
  | [] => s
  | RunEvent.resultEvent suc msg b :: rest =>
    flushTail
      { s with result := some { success := suc, message := msg, booking := b }, running := false }
      rest
  | RunEvent.errorEvent m :: rest =>
    flushTail
      { s with
        result := some { success := false, message := ("Error: " ++ m), booking := none }
        log := s.log ++ [("ERROR: " ++ m)]
        running := false }
      rest
  | _ :: rest => flushTail s rest

/-- The done branch of the read loop (LyftBooker.js lines 356 to 397):
after flushing the buffered tail, the code consults the `result` binding
captured by the closure when the component rendered (`closureResult`, the
`hasResult` check of line 388); when that captured value is null it
installs the connection-closed failure result, appends the error line and
clears the running flag. -/
def finishDone (closureResult : Option RunResult) (s : RunState) (tail : List RunEvent) : RunState :=
  let s1 := flushTail s tail
  if closureResult.isNone then
    { s1 with
      result := some { success := false, message := connClosedMsg, booking := none }
      log := s1.log ++ [("ERROR: Connection closed unexpectedly")]
      running := false }
  else s1

/-- One whole pass of `runOrchestrator` over a stream: the main loop over
the complete event lines, then, only if no terminal event was reached,
the done branch over the buffered tail. -/
def runStream (origName : String) (closureResult : Option RunResult) (s0 : RunState)
    (events tail : List RunEvent) : RunState :=
  let p := processEvents origName s0 events
  if p.2 then p.1 else finishDone closureResult p.1 tail

/-- Whether an event is terminal (a result or error event). -/
def isTerminal : RunEvent → Bool
  | RunEvent.resultEvent _ _ _ => true
  | RunEvent.errorEvent _ => true
  | _ => false

/-- Whether an event is a result event. -/
def isResultEvent : RunEvent → Bool
  | RunEvent.resultEvent _ _ _ => true
  | _ => false

/-- The messages of the log events of a stream, in arrival order. -/
def logMessages : List RunEvent → List String
  | [] => []
  | RunEvent.logEvent m _ _ :: rest => m :: logMessages rest
  | _ :: rest => logMessages rest

/-- The log lines a terminal event itself appends: an error event appends
its error line, a result event appends nothing. -/
def terminalLogSuffix : RunEvent → List String
  | RunEvent.errorEvent m => [("ERROR: " ++ m)]
  | _ => []

/-- The result recorded for a terminal event, mirroring the two terminal
branches of the main read loop. -/
def terminalResult : RunEvent → Option RunResult
  | RunEvent.resultEvent suc msg b => some { success := suc, message := msg, booking := b }
  | RunEvent.errorEvent m => some { success := false, message := ("Error: " ++ m), booking := none }
  | _ => none

/-- The ride ids of the tracked active bookings, in list order. -/
def rideIds (abs : List ActiveBooking) : List Nat := abs.map (fun b => b.ride_id)

/-- The component state right after `runOrchestrator` passes validation on
a first run (LyftBooker.js lines 301 to 303): running set, result
cleared, the log reset to the starting line; `activeBookings` is not
reset there and is empty on a first run. -/
def runInit : RunState :=
  { log := [("Starting Lyft Orchestrator...")]
    result := none
    running := true
    activeBookings := [] }

/-- Modelled from the spec: the shape of the run-trigger endpoint event
stream (spec section 6), namely log events terminating in exactly one
result or error event.  The backend producing the stream is not among the
provided sources. -/
def specStreamShape (events : List RunEvent) : Prop :=
  ∃ pre term, events = pre ++ [term] ∧ (∀ e ∈ pre, isTerminal e = false) ∧ isTerminal term = true

/-- A concrete run stream: the target user is reported booked in a log
line carrying the confirmed ride id, and the terminal success result then
carries the same ride id in its `lyft_booking` payload. -/
def c9CexEvents : List RunEvent :=
  [ RunEvent.logEvent ("✓ Alice booked Lyft! Confirmed Ride ID: 103")
      (some { userName := "Alice", rideType := "Lyft", rideId := some 103 }) none
  , RunEvent.resultEvent true ("SUCCESS! Lyft booked for Alice")
      (some { seriesRideIds := [103] }) ]

/-! ### Start guard of the Lyft orchestrator (LyftBooker.js) -/

/-- The inputs the start guard of the second LyftBooker variant reads
(LyftBooker.js lines 757 to 768): the loaded users, the selected original
user id, the search mode, the selected route id and the map endpoints.
Empty strings model the falsy unselected values. -/
structure LyftSetup where
  users : List String
  originalUser : String
  searchMode : String
  selectedRoute : String
  mapOrigin : Option (Int × Int)
  mapDestination : Option (Int × Int)
deriving DecidableEq, Repr

/-- The disabled condition of the Start Lyft Orchestrator button in the
second LyftBooker variant (LyftBooker.js lines 760 to 765). -/
def startDisabled (st : LyftSetup) : Bool :=
  st.originalUser == "" || decide (st.users.length < 2) ||
  (st.searchMode == "route" && st.selectedRoute == "") ||
  (st.searchMode == "map" && (st.mapOrigin.isNone || st.mapDestination.isNone))

/-- Whether the warning about needing at least two accounts is rendered
(LyftBooker.js lines 750 to 755 and 156 to 161). -/
def lyftWarningShown (st : LyftSetup) : Bool := decide (st.users.length < 2)

/-- The disabled condition of the Start button in the first LyftBooker
variant (LyftBooker.js line 166). -/
def startDisabledV1 (users : List String) : Bool := decide (users.length < 2)

/-- Whether a click on the Start button invokes `runOrchestrator`: a
disabled button never fires its click handler. -/
def runInvokedOnClick (st : LyftSetup) : Bool := !startDisabled st

/-! ### BookingStatusPanel connection and polling (DeveloperPanel.js merged file) -/

/-- The connection-related state of BookingStatusPanel: the connected
flag, the active polling interval in milliseconds when polling (the
`pollingRef`), and whether the initial snapshot fetch of the mount effect
has been issued. -/
structure PanelState where
  connected : Bool
  polling : Option Nat
  initialFetched : Bool
deriving DecidableEq, Repr

/-- Events delivered to the BookingStatusPanel EventSource handlers. -/
inductive PanelEvent where
  | onOpen
  | onError
  | onMessage
deriving DecidableEq, Repr

/-- Model of `startPolling` (DeveloperPanel.js lines 253 to 258): when no
interval is active, a 3000 millisecond interval is installed; an already
active interval is kept. -/
def bspStartPolling (s : PanelState) : PanelState :=
  if s.polling.isSome then s else { s with polling := some 3000 }

/-- Model of `stopPolling` (DeveloperPanel.js lines 260 to 265): the
interval, if any, is cleared. -/
def bspStopPolling (s : PanelState) : PanelState := { s with polling := none }

/-- The EventSource handlers of BookingStatusPanel (DeveloperPanel.js
lines 276 to 302): `onopen` sets connected and stops polling, `onerror`
clears connected and starts polling, `onmessage` does not touch the
connection or polling state. -/
def panelStep (s : PanelState) : PanelEvent → PanelState
  | PanelEvent.onOpen => bspStopPolling { s with connected := true }
  | PanelEvent.onError => bspStartPolling { s with connected := false }
  | PanelEvent.onMessage => s

/-- The mount effect of BookingStatusPanel (DeveloperPanel.js lines 267
to 306): an initial snapshot fetch is always issued first; then the
EventSource is created, and if its construction throws (`esOk = false`)
polling is started immediately. -/
def panelMount (esOk : Bool) : PanelState :=
  let s : PanelState := { connected := false, polling := none, initialFetched := true }
  if esOk then s else bspStartPolling s

/-- The panel state reached from mount after a sequence of EventSource
events. -/
def panelReach (esOk : Bool) (evs : List PanelEvent) : PanelState :=
  evs.foldl panelStep (panelMount esOk)

/-! ### Snapshot push messages (both subscriber components) -/

/-- A parsed push message of the status stream: its `type` tag and its
optional `data` payload. -/
structure PushMsg (α : Type) where
  type : String
  data : Option α
deriving DecidableEq, Repr

/-- The `onmessage` handler of BookingStatusPanel (DeveloperPanel.js lines
282 to 291): on a message of type snapshot the whole snapshot state is
replaced by the message data; other messages leave it unchanged. -/
def bspApplyMessage {α : Type} (cur : Option α) (m : PushMsg α) : Option α :=
  if m.type == "snapshot" then m.data else cur

/-- The `onmessage` handler of DeveloperPanel (DeveloperPanel.js lines 23
to 32): on a message of type snapshot with a truthy data payload the
whole snapshot state is replaced by that payload; other messages leave it
unchanged. -/
def devApplyMessage {α : Type} (cur : α) (m : PushMsg α) : α :=
  if m.type == "snapshot" then
    match m.data with
    | some d => d
    | none => cur
  else cur

/-! ### API base resolution (config.js) -/

/-- The process environment and location inputs `getApiBase` reads. -/
structure ApiEnv where
  reactAppApiUrl : Option String
  hostname : String
deriving DecidableEq, Repr

/-- Model of `getApiBase` (config.js lines 8 to 22) in explicit
state-passing form: the first component is the returned string, the
second the `_cached` module variable after the call (`none` models the
JavaScript null).  A cached value is returned unchanged; otherwise the
environment variable, when truthy with a truthy trim, yields its trim
with one trailing slash removed; otherwise the localhost development
fallback or the empty string is cached. -/
def getApiBase (cached : Option String) (env : ApiEnv) : String × Option String :=
  match cached with
  | some v => (v, some v)
  | none =>
    match env.reactAppApiUrl with
    | some e =>
      if e ≠ "" ∧ jsTrim e ≠ "" then
        (jsStripOneTrailingSlash (jsTrim e), some (jsStripOneTrailingSlash (jsTrim e)))
      else if env.hostname = "localhost" then
        (("http://localhost:5001"), some ("http://localhost:5001"))
      else ((""), some (""))
    | none =>
      if env.hostname = "localhost" then
        (("http://localhost:5001"), some ("http://localhost:5001"))
      else ((""), some (""))

/-- The value of the API base as the claim words it: the environment
variable trimmed of surrounding whitespace with at most one trailing
slash removed when it is set non-blank, the localhost development URL
when the page hostname is localhost, and the empty string elsewhere. -/
def apiBaseClaimValue (env : ApiEnv) : String :=
  match env.reactAppApiUrl with
  | some e =>
    if jsTrim e ≠ "" then jsStripOneTrailingSlash (jsTrim e)
    else if env.hostname = "localhost" then "http://localhost:5001" else ""
  | none => if env.hostname = "localhost" then "http://localhost:5001" else ""

/-! ### Timestamp formatting (App.js) -/

/-- The JavaScript values `formatTime` can receive as its timestamp:
null, undefined, NaN, the empty string, and numbers. -/
inductive JsTimestamp where
  | nullV
  | undef
  | nan
  | emptyStr
  | num (q : Int)
deriving DecidableEq, Repr

/-- JavaScript truthiness of such a value: null, undefined, NaN, the
empty string and the number zero are falsy; every other number is
truthy. -/
def jsTruthy : JsTimestamp → Bool
  | JsTimestamp.num q => decide (q ≠ 0)
  | _ => false

/-- Model of `formatTime` (App.js lines 154 to 162, identical in part_001
lines 266 to 274): a falsy timestamp yields N/A; a truthy number is
rendered by the locale time formatter applied to the timestamp times
1000 milliseconds.  `render` stands for the JavaScript
`new Date(ms).toLocaleTimeString('en-US', ...)` runtime primitive, which
does not throw on numbers. -/
def formatTime (render : Int → String) (t : JsTimestamp) : String :=
  if jsTruthy t then
    match t with
    | JsTimestamp.num q => render (q * 1000)
    | _ => "N/A"
  else "N/A"

/-- A one-user setup used to instantiate theorems about the start guard. -/
def oneUserSetup : LyftSetup :=
  { users := [("solo")]
    originalUser := "solo"
    searchMode := "route"
    selectedRoute := "r1"
    mapOrigin := none
    mapDestination := none }

/-! ### Helper lemmas -/

theorem stepLogEvent_log (s : RunState) (m : String) (bm : Option BookingMatch)
    (cm : Option String) : (stepLogEvent s m bm cm).log = s.log ++ [m] := by
  unfold stepLogEvent
  rcases bm with _ | b <;> rcases cm with _ | n <;> rfl

theorem stepLogEvent_result (s : RunState) (m : String) (bm : Option BookingMatch)
    (cm : Option String) : (stepLogEvent s m bm cm).result = s.result := by
  unfold stepLogEvent
  rcases bm with _ | b <;> rcases cm with _ | n <;> rfl

theorem stepResultEvent_log (origName : String) (s : RunState) (suc : Bool) (msg : String)
    (b : Option LyftBooking) : (stepResultEvent origName s suc msg b).log = s.log := by
  rcases b with _ | lb
  · cases suc <;> rfl
  · cases suc
    · rfl
    · rcases lb with ⟨ids⟩
      cases ids <;> rfl

theorem stepResultEvent_result (origName : String) (s : RunState) (suc : Bool) (msg : String)
    (b : Option LyftBooking) :
    (stepResultEvent origName s suc msg b).result
      = some { success := suc, message := msg, booking := b } := by
  rcases b with _ | lb
  · cases suc <;> rfl
  · cases suc
    · rfl
    · rcases lb with ⟨ids⟩
      cases ids <;> rfl

theorem panelPolling_foldl (evs : List PanelEvent) :
    ∀ s : PanelState, (s.polling = none ∨ s.polling = some 3000) →
      ((evs.foldl panelStep s).polling = none ∨ (evs.foldl panelStep s).polling = some 3000) := by
  induction evs with
  | nil => intro s h; simpa using h
  | cons e rest ih =>
    intro s h
    refine ih (panelStep s e) ?_
    cases e with
    | onOpen => simp [panelStep, bspStopPolling]
    | onError =>
      rcases h with h | h <;> simp [panelStep, bspStartPolling, h]
    | onMessage => simpa [panelStep] using h

theorem panelInitialFetched_foldl (evs : List PanelEvent) :
    ∀ s : PanelState, (evs.foldl panelStep s).initialFetched = s.initialFetched := by
  induction evs with
  | nil => intro s; rfl
  | cons e rest ih =>
    intro s
    rw [List.foldl_cons, ih]
    cases e with
    | onOpen => rfl
    | onError =>
      simp only [panelStep, bspStartPolling]
      split <;> rfl
    | onMessage => rfl


/-! ### Claim theorems -/

/-- C5: a run can only be started when at least two accounts are
configured.  Whenever fewer than two users are loaded, the Start Lyft
Orchestrator button is disabled in both LyftBooker variants and the
warning is shown, so a click never invokes `runOrchestrator`. -/
theorem c5_run_requires_two_accounts (st : LyftSetup) (h : st.users.length < 2) :
    startDisabled st = true ∧ lyftWarningShown st = true ∧ startDisabledV1 st.users = true
      ∧ runInvokedOnClick st = false := by
  have hd : decide (st.users.length < 2) = true := decide_eq_true h
  refine ⟨?_, ?_, ?_, ?_⟩
  · simp [startDisabled, hd]
  · simp [lyftWarningShown, hd]
  · simp [startDisabledV1, hd]
  · simp [runInvokedOnClick, startDisabled, hd]

/-- C5 witness: with a single loaded user the button is disabled, the
warning shows, and a click does not invoke the orchestrator. -/
theorem c5_run_requires_two_accounts_witness :
    startDisabled oneUserSetup = true ∧ lyftWarningShown oneUserSetup = true
      ∧ startDisabledV1 oneUserSetup.users = true ∧ runInvokedOnClick oneUserSetup = false :=
  c5_run_requires_two_accounts oneUserSetup (by decide)

/-- C6: the status view has a pull fallback for a failed push channel.
From any state reachable after mount, an EventSource error event starts
polling at the fixed 3000 millisecond interval, an open event stops
polling, and the initial snapshot fetch happens on mount whether or not
the EventSource could be constructed. -/
theorem c6_pull_fallback_for_failed_push (esOk : Bool) (evs : List PanelEvent) :
    (panelMount esOk).initialFetched = true
    ∧ (panelReach esOk evs).initialFetched = true
    ∧ (panelStep (panelReach esOk evs) PanelEvent.onError).polling = some 3000
    ∧ (panelStep (panelReach esOk evs) PanelEvent.onOpen).polling = none := by
  have hmount : (panelMount esOk).polling = none ∨ (panelMount esOk).polling = some 3000 := by
    cases esOk <;> simp [panelMount, bspStartPolling]
  have hinv := panelPolling_foldl evs (panelMount esOk) hmount
  refine ⟨?_, ?_, ?_, ?_⟩
  · cases esOk <;> simp [panelMount, bspStartPolling]
  · rw [panelReach, panelInitialFetched_foldl]
    cases esOk <;> simp [panelMount, bspStartPolling]
  · rcases hinv with h | h <;> simp [panelStep, bspStartPolling, panelReach] at h ⊢ <;> simp [h]
  · simp [panelStep, bspStopPolling]

/-- C7: each delivered snapshot wholly supersedes any earlier one on the
client.  For a push message of type snapshot with data `d`, both
subscriber components replace their snapshot state with `d`, and the new
state does not depend on the previous state. -/
theorem c7_snapshot_wholly_supersedes (α : Type) (cur cur2 : Option α) (devCur devCur2 : α)
    (d : α) :
    bspApplyMessage cur { type := ("snapshot"), data := some d } = some d
    ∧ devApplyMessage devCur { type := ("snapshot"), data := some d } = d
    ∧ bspApplyMessage cur { type := ("snapshot"), data := some d }
        = bspApplyMessage cur2 { type := ("snapshot"), data := some d }
    ∧ devApplyMessage devCur { type := ("snapshot"), data := some d }
        = devApplyMessage devCur2 { type := ("snapshot"), data := some d } := by
  refine ⟨?_, ?_, ?_, ?_⟩ <;> simp [bspApplyMessage, devApplyMessage]

/-- C8: `getApiBase` is idempotent and deterministic within a process.
With a cache in place every call returns the cached string unchanged, the
first call caches exactly what it returns, a second call (under any
environment) returns the first value, and the first value is the
variable trimmed with at most one trailing slash removed when the
variable is non-blank, the localhost development URL when the hostname is
localhost, and the empty string elsewhere. -/
theorem c8_getApiBase_cached_deterministic (env env2 : ApiEnv) (v : String) :
    getApiBase (some v) env2 = (v, some v)
    ∧ (getApiBase none env).2 = some ((getApiBase none env).1)
    ∧ (getApiBase ((getApiBase none env).2) env2).1 = (getApiBase none env).1
    ∧ (getApiBase none env).1 = apiBaseClaimValue env := by
  have hcached : ∀ (w : String) (env3 : ApiEnv), getApiBase (some w) env3 = (w, some w) :=
    fun w env3 => rfl
  have hsnd : (getApiBase none env).2 = some ((getApiBase none env).1) := by
    rcases env with ⟨u, host⟩
    rcases u with _ | e
    · by_cases hh : host = "localhost" <;> simp [getApiBase, hh]
    · by_cases h1 : e ≠ "" ∧ jsTrim e ≠ ""
      · simp [getApiBase, h1]
      · by_cases hh : host = "localhost" <;> simp [getApiBase, h1, hh]
  refine ⟨hcached v env2, hsnd, ?_, ?_⟩
  · rw [hsnd, hcached]
  · rcases env with ⟨u, host⟩
    rcases u with _ | e
    · by_cases hh : host = "localhost" <;> simp [getApiBase, apiBaseClaimValue, hh]
    · by_cases ht : jsTrim e = ""
      · have he : ¬ (e ≠ "" ∧ jsTrim e ≠ "") := by simp [ht]
        by_cases hh : host = "localhost" <;>
          simp [getApiBase, apiBaseClaimValue, ht, he, hh]
      · have hne : e ≠ "" := by
          intro h0
          rw [h0] at ht
          exact ht rfl
        have h1 : e ≠ "" ∧ jsTrim e ≠ "" := ⟨hne, ht⟩
        simp [getApiBase, apiBaseClaimValue, h1, ht]

/-- C10: `formatTime` returns N/A for every falsy timestamp input (null,
undefined, NaN, the empty string and the number zero, a valid Unix epoch),
and renders every truthy numeric timestamp with the locale formatter
applied to the timestamp times 1000 milliseconds. -/
theorem c10_formatTime_falsy_and_truthy (render : Int → String) (q : Int) :
    formatTime render JsTimestamp.nullV = "N/A"
    ∧ formatTime render JsTimestamp.undef = "N/A"
    ∧ formatTime render JsTimestamp.nan = "N/A"
    ∧ formatTime render JsTimestamp.emptyStr = "N/A"
    ∧ formatTime render (JsTimestamp.num 0) = "N/A"
    ∧ (q ≠ 0 → formatTime render (JsTimestamp.num q) = render (q * 1000)) := by
  have h0 : jsTruthy (JsTimestamp.num 0) = false := by decide
  refine ⟨rfl, rfl, rfl, rfl, by simp [formatTime, h0], fun hq => ?_⟩
  have hq2 : jsTruthy (JsTimestamp.num q) = true := by
    simp [jsTruthy, hq]
  simp [formatTime, hq2]

/-- C10 witness: the timestamp 3 is rendered as 3000 milliseconds passed
to the formatter, here instantiated with `toString`. -/
theorem c10_formatTime_witness :
    formatTime (fun ms => toString ms) (JsTimestamp.num 3) = toString ((3 : Int) * 1000) :=
  (c10_formatTime_falsy_and_truthy (fun ms => toString ms) 3).2.2.2.2.2 (by decide)


theorem find_markCancelled (acct : String) (ride : Nat) (store : Store) :
    (markCancelled store acct ride).find? (recMatches acct ride)
      = (store.find? (recMatches acct ride)).map
          (fun r => { r with status := RecStatus.cancelled }) := by
  induction store with
  | nil => rfl
  | cons r rest ih =>
    by_cases h : recMatches acct ride r = true
    · have h2 : recMatches acct ride { r with status := RecStatus.cancelled } = true := h
      have hmap : markCancelled (r :: rest) acct ride
          = { r with status := RecStatus.cancelled } :: markCancelled rest acct ride := by
        simp [markCancelled, h]
      rw [hmap, List.find?_cons_of_pos _ h2, List.find?_cons_of_pos _ h]
      rfl
    · have hf : recMatches acct ride r = false := by
        revert h
        cases recMatches acct ride r <;> simp
      have hmap : markCancelled (r :: rest) acct ride = r :: markCancelled rest acct ride := by
        simp [markCancelled, hf]
      rw [hmap, List.find?_cons_of_neg _ h, List.find?_cons_of_neg _ h, ih]

/-- C1: cancellation is idempotent and the client guards in-flight
cancels.  Issuing Cancel twice for the same record (with a succeeding
external primitive) invokes the external cancel primitive at most once
across both calls and both results are success-equivalent; in the
DeveloperPanel client, once a cancel for a (user, ride id) key starts,
the Cancel button for that key is disabled until the request finishes,
after which it is enabled again. -/
theorem c1_cancel_idempotent_and_inflight_guard (store : Store) (acct : String) (ride : Nat)
    (keys : List String) (userKey : String) (rideId : Nat) :
    ((cancelCtl true store acct ride).externalCalls
        + (cancelCtl true (cancelCtl true store acct ride).store acct ride).externalCalls ≤ 1)
    ∧ successEquiv (cancelCtl true store acct ride).result = true
    ∧ successEquiv (cancelCtl true (cancelCtl true store acct ride).store acct ride).result = true
    ∧ cancelButtonDisabled (startCancelRide keys userKey rideId) userKey rideId = true
    ∧ cancelButtonDisabled (finishCancelRide (startCancelRide keys userKey rideId) userKey rideId)
        userKey rideId = false := by
  have hserver :
      ((cancelCtl true store acct ride).externalCalls
          + (cancelCtl true (cancelCtl true store acct ride).store acct ride).externalCalls ≤ 1)
      ∧ successEquiv (cancelCtl true store acct ride).result = true
      ∧ successEquiv (cancelCtl true (cancelCtl true store acct ride).store acct ride).result
          = true := by
    cases hf : store.find? (recMatches acct ride) with
    | none => simp [cancelCtl, hf, successEquiv]
    | some r =>
      by_cases hs : r.status = RecStatus.cancelled
      · simp [cancelCtl, hf, hs, successEquiv]
      · have htrans : (transitionToCancelled store acct ride).2 = markCancelled store acct ride := by
          simp [transitionToCancelled, hf, hs]
        have hf2 : (markCancelled store acct ride).find? (recMatches acct ride)
            = some { r with status := RecStatus.cancelled } := by
          rw [find_markCancelled acct ride store, hf]
          rfl
        simp [cancelCtl, hf, hs, htrans, hf2, successEquiv]
  have hmem : cancelKey userKey rideId ∈ startCancelRide keys userKey rideId := by
    unfold startCancelRide setAdd
    split
    · assumption
    · simp
  have hnot : cancelKey userKey rideId
      ∉ finishCancelRide (startCancelRide keys userKey rideId) userKey rideId := by
    unfold finishCancelRide setDelete
    intro hmem2
    have hp := List.of_mem_filter hmem2
    simp at hp
  refine ⟨hserver.1, hserver.2.1, hserver.2.2, ?_, ?_⟩
  · simp [cancelButtonDisabled, hmem]
  · simp [cancelButtonDisabled, hnot]

set_option maxRecDepth 4096 in
/-- C2 counterexample: the ride kind is not carried by an explicit field.
Two serialized proposals with identical explicit fields but different
free text in the note field are classified differently, and the one whose
free text mentions Lyft is displayed and booked as Lyft: the kind is a
function of the serialized text, not of any ride-kind field. -/
theorem c2_ride_kind_counterexample :
    bookRideType
        ("\x7b\"proposal_uuid\":\"u1\",\"prescheduled_ride_id\":7,\"note\":\"evening shuttle\"\x7d")
      = "RideSmart"
    ∧ bookRideType
        ("\x7b\"proposal_uuid\":\"u1\",\"prescheduled_ride_id\":7,\"note\":\"operated by Lyft\"\x7d")
      = "Lyft"
    ∧ renderIsLyft
        ("\x7b\"proposal_uuid\":\"u1\",\"prescheduled_ride_id\":7,\"note\":\"operated by Lyft\"\x7d")
      = true
    ∧ vehicleTypeBadge
        ("\x7b\"proposal_uuid\":\"u1\",\"prescheduled_ride_id\":7,\"note\":\"operated by Lyft\"\x7d")
      = "üöó Lyft" := by decide

/-- C2 amended: the ride kind of a rendered or booked proposal is
inferred by scanning the lowercased JSON-serialized proposal for the
substring lyft: the `ride_type` sent to the server is Lyft exactly when
that substring occurs and RideSmart otherwise, and the displayed vehicle
type is computed by the same scan, so the two always agree. -/
theorem c2_ride_kind_by_substring_scan (s : String) :
    (bookRideType s = "Lyft" ↔ (("lyft").data <:+: (jsToLowerCase s).data))
    ∧ (bookRideType s = "RideSmart" ↔ ¬ (("lyft").data <:+: (jsToLowerCase s).data))
    ∧ (renderIsLyft s = true ↔ (("lyft").data <:+: (jsToLowerCase s).data))
    ∧ bookRideType s = (if renderIsLyft s then "Lyft" else "RideSmart")
    ∧ vehicleTypeBadge s = (if renderIsLyft s then "üöó Lyft" else "üöê RideSmart") := by
  have hne : ("Lyft" : String) ≠ "RideSmart" := by decide
  by_cases h : ("lyft").data <:+: (jsToLowerCase s).data
  · simp [bookRideType, renderIsLyft, vehicleTypeBadge, jsIncludes, h, hne]
  · simp [bookRideType, renderIsLyft, vehicleTypeBadge, jsIncludes, h, hne]


theorem processEvents_not_terminal_snd (origName : String) :
    ∀ (evs : List RunEvent), (∀ e ∈ evs, isTerminal e = false) →
      ∀ s : RunState, (processEvents origName s evs).2 = false := by
  intro evs
  induction evs with
  | nil => intro _ s; rfl
  | cons e rest ih =>
    intro h s
    have he := h e (List.mem_cons_self e rest)
    have hrest : ∀ x ∈ rest, isTerminal x = false :=
      fun x hx => h x (List.mem_cons_of_mem e hx)
    cases e with
    | logEvent m bm cm => exact ih hrest (stepLogEvent s m bm cm)
    | resultEvent suc msg b => simp [isTerminal] at he
    | errorEvent m => simp [isTerminal] at he
    | skipLine => exact ih hrest s

theorem processEvents_not_terminal_fst (origName : String) :
    ∀ (evs : List RunEvent), (∀ e ∈ evs, isTerminal e = false) →
      ∀ s : RunState,
        (processEvents origName s evs).1.log = s.log ++ logMessages evs
        ∧ (processEvents origName s evs).1.result = s.result := by
  intro evs
  induction evs with
  | nil => intro _ s; simp [processEvents, logMessages]
  | cons e rest ih =>
    intro h s
    have he := h e (List.mem_cons_self e rest)
    have hrest : ∀ x ∈ rest, isTerminal x = false :=
      fun x hx => h x (List.mem_cons_of_mem e hx)
    cases e with
    | logEvent m bm cm =>
      have := ih hrest (stepLogEvent s m bm cm)
      constructor
      · rw [show (processEvents origName s (RunEvent.logEvent m bm cm :: rest)).1
            = (processEvents origName (stepLogEvent s m bm cm) rest).1 from rfl]
        rw [this.1, stepLogEvent_log]
        simp [logMessages]
      · rw [show (processEvents origName s (RunEvent.logEvent m bm cm :: rest)).1
            = (processEvents origName (stepLogEvent s m bm cm) rest).1 from rfl]
        rw [this.2, stepLogEvent_result]
    | resultEvent suc msg b => simp [isTerminal] at he
    | errorEvent m => simp [isTerminal] at he
    | skipLine =>
      have := ih hrest s
      constructor
      · rw [show (processEvents origName s (RunEvent.skipLine :: rest)).1
            = (processEvents origName s rest).1 from rfl]
        rw [this.1]
        simp [logMessages]
      · exact this.2

theorem processEvents_append (origName : String) :
    ∀ (evs : List RunEvent), (∀ e ∈ evs, isTerminal e = false) →
      ∀ (s : RunState) (evs2 : List RunEvent),
        processEvents origName s (evs ++ evs2)
          = processEvents origName (processEvents origName s evs).1 evs2 := by
  intro evs
  induction evs with
  | nil => intro _ s evs2; rfl
  | cons e rest ih =>
    intro h s evs2
    have he := h e (List.mem_cons_self e rest)
    have hrest : ∀ x ∈ rest, isTerminal x = false :=
      fun x hx => h x (List.mem_cons_of_mem e hx)
    cases e with
    | logEvent m bm cm => exact ih hrest (stepLogEvent s m bm cm) evs2
    | resultEvent suc msg b => simp [isTerminal] at he
    | errorEvent m => simp [isTerminal] at he
    | skipLine => exact ih hrest s evs2

theorem flushTail_no_terminal :
    ∀ (tail : List RunEvent), (∀ e ∈ tail, isTerminal e = false) →
      ∀ s : RunState, flushTail s tail = s := by
  intro tail
  induction tail with
  | nil => intro _ s; rfl
  | cons e rest ih =>
    intro h s
    have he := h e (List.mem_cons_self e rest)
    have hrest : ∀ x ∈ rest, isTerminal x = false :=
      fun x hx => h x (List.mem_cons_of_mem e hx)
    cases e with
    | logEvent m bm cm => exact ih hrest s
    | resultEvent suc msg b => simp [isTerminal] at he
    | errorEvent m => simp [isTerminal] at he
    | skipLine => exact ih hrest s

/-- C3: if the run stream ends without a terminal event having been
delivered (including in the remaining buffered lines), the client assumes
failure: the result is set to the connection-closed failure and the
running flag is cleared.  The captured result binding is none, its value
at every point where the Start button can invoke `runOrchestrator`. -/
theorem c3_stream_end_without_terminal_fails (origName : String) (s0 : RunState)
    (events tail : List RunEvent)
    (hev : ∀ e ∈ events, isTerminal e = false)
    (htail : ∀ e ∈ tail, isTerminal e = false) :
    (runStream origName none s0 events tail).result
      = some { success := false, message := connClosedMsg, booking := none }
    ∧ (runStream origName none s0 events tail).running = false := by
  have h2 := processEvents_not_terminal_snd origName events hev s0
  have hflush := flushTail_no_terminal tail htail (processEvents origName s0 events).1
  simp [runStream, h2, finishDone, hflush]

/-- C3 witness: a stream of one log line whose buffered tail holds only a
skipped line ends in the connection-closed failure with running
cleared. -/
theorem c3_stream_end_without_terminal_fails_witness :
    (runStream ("Alice") none runInit [RunEvent.logEvent ("Searching...") none none]
        [RunEvent.skipLine]).result
      = some { success := false, message := connClosedMsg, booking := none }
    ∧ (runStream ("Alice") none runInit [RunEvent.logEvent ("Searching...") none none]
        [RunEvent.skipLine]).running = false :=
  c3_stream_end_without_terminal_fails ("Alice") runInit _ _ (by decide) (by decide)


/-- C4: the run stream is log events followed by exactly one terminal
event, and the client stops at the first terminal event.  For any stream
whose prefix has no terminal event, the client appends each log message
in arrival order (an error terminal adds its own error line), processing
is identical whatever follows the first terminal event, the loop returns
there, and the recorded result is exactly the first terminal result. -/
theorem c4_first_terminal_stops_processing (origName : String) (s0 : RunState)
    (pre : List RunEvent) (term : RunEvent) (rest : List RunEvent)
    (hpre : ∀ e ∈ pre, isTerminal e = false) (hterm : isTerminal term = true) :
    specStreamShape (pre ++ [term])
    ∧ processEvents origName s0 (pre ++ term :: rest)
        = processEvents origName s0 (pre ++ [term])
    ∧ (processEvents origName s0 (pre ++ term :: rest)).2 = true
    ∧ (processEvents origName s0 (pre ++ term :: rest)).1.log
        = s0.log ++ logMessages pre ++ terminalLogSuffix term
    ∧ (processEvents origName s0 (pre ++ term :: rest)).1.result = terminalResult term := by
  have hmid := processEvents_not_terminal_fst origName pre hpre s0
  have happ1 := processEvents_append origName pre hpre s0 (term :: rest)
  have happ2 := processEvents_append origName pre hpre s0 [term]
  refine ⟨⟨pre, term, rfl, hpre, hterm⟩, ?_, ?_, ?_, ?_⟩
  · rw [happ1, happ2]
    cases term with
    | logEvent m bm cm => simp [isTerminal] at hterm
    | resultEvent suc msg b => rfl
    | errorEvent m => rfl
    | skipLine => simp [isTerminal] at hterm
  · rw [happ1]
    cases term with
    | logEvent m bm cm => simp [isTerminal] at hterm
    | resultEvent suc msg b => rfl
    | errorEvent m => rfl
    | skipLine => simp [isTerminal] at hterm
  · rw [happ1]
    cases term with
    | logEvent m bm cm => simp [isTerminal] at hterm
    | resultEvent suc msg b =>
      rw [show (processEvents origName (processEvents origName s0 pre).1
            (RunEvent.resultEvent suc msg b :: rest)).1
          = stepResultEvent origName (processEvents origName s0 pre).1 suc msg b from rfl]
      rw [stepResultEvent_log, hmid.1]
      simp [terminalLogSuffix]
    | errorEvent m =>
      rw [show (processEvents origName (processEvents origName s0 pre).1
            (RunEvent.errorEvent m :: rest)).1
          = stepErrorEvent (processEvents origName s0 pre).1 m from rfl]
      show (processEvents origName s0 pre).1.log ++ [("ERROR: " ++ m)]
          = s0.log ++ logMessages pre ++ terminalLogSuffix (RunEvent.errorEvent m)
      rw [hmid.1]
      rfl
    | skipLine => simp [isTerminal] at hterm
  · rw [happ1]
    cases term with
    | logEvent m bm cm => simp [isTerminal] at hterm
    | resultEvent suc msg b =>
      rw [show (processEvents origName (processEvents origName s0 pre).1
            (RunEvent.resultEvent suc msg b :: rest)).1
          = stepResultEvent origName (processEvents origName s0 pre).1 suc msg b from rfl]
      rw [stepResultEvent_result]
      rfl
    | errorEvent m => rfl
    | skipLine => simp [isTerminal] at hterm

/-- C4 witness: with one log line, a result terminal and a stray late
error event, the recorded result is the first terminal result. -/
theorem c4_first_terminal_stops_processing_witness :
    (processEvents ("Alice") runInit
        ([RunEvent.logEvent ("step one") none none]
          ++ RunEvent.resultEvent true ("ok") none :: [RunEvent.errorEvent ("late")])).1.result
      = terminalResult (RunEvent.resultEvent true ("ok") none) :=
  (c4_first_terminal_stops_processing ("Alice") runInit
      [RunEvent.logEvent ("step one") none none] (RunEvent.resultEvent true ("ok") none)
      [RunEvent.errorEvent ("late")] (by decide) rfl).2.2.2.2

theorem applyBookingMatch_nodup (abs : List ActiveBooking) (bm : BookingMatch)
    (h : (rideIds abs).Nodup) : (rideIds (applyBookingMatch abs bm)).Nodup := by
  rcases bm with ⟨un, rt, ridOpt⟩
  rcases ridOpt with _ | rid
  · simpa [applyBookingMatch] using h
  · cases hex : abs.any (fun b => b.ride_id == rid) with
    | true => simpa [applyBookingMatch, hex] using h
    | false =>
      have hnotin : rid ∉ rideIds abs := by
        intro hmem
        rcases List.mem_map.mp hmem with ⟨b, hb, hbid⟩
        have hp := (List.any_eq_false.mp hex) b hb
        exact hp (by simp [hbid])
      have hlist :
          rideIds (applyBookingMatch abs { userName := un, rideType := rt, rideId := some rid })
            = rideIds abs ++ [rid] := by
        simp [applyBookingMatch, hex, rideIds]
      rw [hlist]
      simp [List.nodup_append, h, hnotin]

theorem applyCancelMatch_nodup (abs : List ActiveBooking) (nm : String)
    (h : (rideIds abs).Nodup) : (rideIds (applyCancelMatch abs nm)).Nodup := by
  have hsub : List.Sublist (applyCancelMatch abs nm) abs := List.filter_sublist abs
  exact List.Nodup.sublist (List.Sublist.map _ hsub) h

theorem stepLogEvent_nodup (s : RunState) (m : String) (bm : Option BookingMatch)
    (cm : Option String) (h : (rideIds s.activeBookings).Nodup) :
    (rideIds (stepLogEvent s m bm cm).activeBookings).Nodup := by
  rcases bm with _ | b <;> rcases cm with _ | n
  · exact h
  · exact applyCancelMatch_nodup _ _ h
  · exact applyBookingMatch_nodup _ _ h
  · exact applyCancelMatch_nodup _ _ (applyBookingMatch_nodup _ _ h)

/-- C9 amended: the log-event booking path never introduces a duplicate
ride id.  When a log event matching the booking pattern is processed, a
booking whose parsed ride id already occurs in `activeBookings` is not
added again, so processing any events other than a result event preserves
pairwise-distinct ride ids; the success-result path, by contrast, appends
the confirmed booking without a duplicate check, so distinctness can be
violated there. -/
theorem c9_log_path_preserves_distinct_ride_ids (origName : String) :
    ∀ (evs : List RunEvent), (∀ e ∈ evs, isResultEvent e = false) →
      ∀ s : RunState, (rideIds s.activeBookings).Nodup →
        (rideIds (processEvents origName s evs).1.activeBookings).Nodup := by
  intro evs
  induction evs with
  | nil => intro _ s hs; exact hs
  | cons e rest ih =>
    intro h s hs
    have he := h e (List.mem_cons_self e rest)
    have hrest : ∀ x ∈ rest, isResultEvent x = false :=
      fun x hx => h x (List.mem_cons_of_mem e hx)
    cases e with
    | logEvent m bm cm => exact ih hrest (stepLogEvent s m bm cm) (stepLogEvent_nodup s m bm cm hs)
    | resultEvent suc msg b => simp [isResultEvent] at he
    | errorEvent m => exact hs
    | skipLine => exact ih hrest s hs

/-- C9 witness: processing a booking log event over the initial state
leaves the tracked ride ids pairwise distinct. -/
theorem c9_log_path_preserves_distinct_ride_ids_witness :
    (rideIds (processEvents ("Alice") runInit
        [RunEvent.logEvent ("✓ Bob booked RideSmart (ride ID: 7)")
            (some { userName := "Bob", rideType := "RideSmart", rideId := some 7 }) none]
      ).1.activeBookings).Nodup :=
  c9_log_path_preserves_distinct_ride_ids ("Alice") _ (by decide) runInit (by decide)

set_option maxRecDepth 4096 in
/-- C9 counterexample: the invariant that no two entries of
`activeBookings` ever share a ride id fails.  A run whose log reports the
confirmed ride id 103 and whose terminal success result carries the same
ride id in its `lyft_booking` ends with two entries of ride id 103,
because the result path appends without a duplicate check. -/
theorem c9_duplicate_ride_id_counterexample :
    ¬ (rideIds (processEvents ("Alice") runInit c9CexEvents).1.activeBookings).Nodup := by
  decide

